import Mathlib

/-!
Verification of the Concurrent Request Dispatch & Sampling Engine
(`cs329_hw1`): a shallow embedding in Lean 4 of the pure cores of
`inference/litellm_models.py`, `methods/simple_samplers.py`,
`methods/__init__.py` and `methods/verifiers.py`, with the external
collaborators (the remote completion transport, the thread pool's
admission mechanism, the tenacity wait distribution, and the symbolic
math-equality checker) modelled as explicit parameters or abstract
oracles, exactly as the specification treats them.
-/

namespace CS329

/-! ## Message construction (`LiteLLMModel.send_request`, message-building lines) -/

/-- A chat message: one (role, content) pair of a Message Sequence. -/
structure Message where
  role : String
  content : String
deriving DecidableEq, Repr

/-- The Python-level configured system prompt: `None` or a string
(`system_prompt: str = None` in `LiteLLMModel.__init__`). -/
abbrev SystemPrompt := Option String

/-- Python truthiness of the `system_prompt` attribute as tested by
`if self.system_prompt:` — `None` and the empty string are falsy. -/
def systemPromptTruthy : SystemPrompt → Bool
  | none => false
  | some s => s ≠ ""

/-- Embedding of the message-construction lines of
`LiteLLMModel.send_request`:
`messages = [{"content": prompt, "role": "user"}]` followed by
`if self.system_prompt: messages.insert(0, {...role "system"...})`. -/
def buildMessages (system_prompt : SystemPrompt) (prompt : String) : List Message :=
  let messages : List Message := [{ role := "user", content := prompt }]
  if systemPromptTruthy system_prompt then
    { role := "system", content := system_prompt.getD "" } :: messages
  else
    messages

/-! ## Request Executor (`LiteLLMModel._make_completion_request` retry core) -/

/-- Outcome of one attempt of the underlying `litellm.completion` call:
either a response string or a raised fault carrying its description.
The transport itself is opaque (out of scope per the spec), so a run is
described by the outcome of each attempt number (1-based). -/
abbrev AttemptOracle := Nat → Except String String

/-- The retry loop installed by
`@retry(wait=wait_random_exponential(min=1, max=5), stop=stop_after_attempt(3))`
on `_make_completion_request`: run attempt `k`; on success stop; on failure
stop once the remaining-attempt budget is exhausted, otherwise retry with
the next attempt number.  Returns the final outcome together with the
number of the last attempt performed. -/
def retryRun (f : AttemptOracle) : Nat → Nat → Except String String × Nat
  | k, 0 => (f k, k)
  | k, budget + 1 =>
    match f k with
    | Except.ok r => (Except.ok r, k)
    | Except.error _ => retryRun f (k + 1) budget

/-- Total attempt cap from `stop_after_attempt(3)`. -/
def MAX_ATTEMPTS : Nat := 3

/-- Embedding of `_make_completion_request` under the retry decorator:
up to `MAX_ATTEMPTS` total attempts, first success wins, the last
failure propagates. -/
def make_completion_request (f : AttemptOracle) : Except String String × Nat :=
  retryRun f 1 (MAX_ATTEMPTS - 1)

/-- Modelled from the spec: the tenacity `wait_random_exponential(min=1, max=5)`
inter-attempt delay (the tenacity library is external to this repository).
The spec states the delay is "drawn from an exponential backoff distribution
randomized within [1s, 5s]": a raw randomized-exponential sample `draw` is
clamped into the configured `[mn, mx]` window. -/
def wait_random_exponential (mn mx draw : ℚ) : ℚ :=
  max mn (min draw mx)

/-- Embedding of `LiteLLMModel.send_request` past message construction:
the retried completion call inside `try`, with `except Exception` turning
the final failure into the sentinel `f"Error: {str(e)}"`.  A total
function: no fault escapes to the caller. -/
def send_request (f : AttemptOracle) : String :=
  match (make_completion_request f).1 with
  | Except.ok r => r
  | Except.error e => "Error: " ++ e

/-! ## Dispatcher (`LiteLLMModel.send_requests`) -/

/-- Per-submission response oracle: `resp i` is the string that
`send_request` returns for the request submitted at position `i`
(success or sentinel — `send_request` is total). -/
abbrev ResponseOracle := Nat → String

/-- The slot-filling core of `send_requests`: starting from
`responses = [None] * len(prompts)`, each completed unit of work writes
its response into the slot of its own submission index
(`responses[i] = future.result()`).  `order` is the sequence of slot
indices in the order the results are recorded, which is unconstrained. -/
def fillSlots (resp : ResponseOracle) (order : List Nat) (slots : List (Option String)) :
    List (Option String) :=
  order.foldl (fun s i => s.set i (some (resp i))) slots

/-- Embedding of `LiteLLMModel.send_requests` for a batch of `M` prompts:
pre-size the slot array, record every completed result into its own slot
(in recording order `order`), then read the array back; `none` results if
some slot was never filled. -/
def send_requests (resp : ResponseOracle) (M : Nat) (order : List Nat) :
    Option (List String) :=
  (fillSlots resp order (List.replicate M none)).mapM id

/-! ## Decoding Strategies (`methods/simple_samplers.py`) -/

/-- Abstract batch dispatcher: what `self.llm.send_requests` looks like to
a strategy — a flat list of prompts in, a flat list of responses out,
where `responses[j]` answers physical request `j`. -/
abbrev BatchDispatch := List String → List String

/-- Embedding of the batch branch of `GreedyMethod.__call__`:
`responses = self.llm.send_requests(prompts); return [[r] for r in responses]`. -/
def greedy_call_list (llm : BatchDispatch) (prompts : List String) : List (List String) :=
  (llm prompts).map (fun r => [r])

/-- Embedding of the single-prompt branch of `GreedyMethod.__call__`:
`return [[self.llm.send_request(prompts)]]`, with `resp` the response the
executor produces for the prompt. -/
def greedy_call_single (resp : String → String) (prompt : String) : List (List String) :=
  [[resp prompt]]

/-- Embedding of the prompt-major expansion in the batch branch of
`SampleMultiple.__call__`:
`[prompt for prompt in prompts for _ in range(self.n_samples)]`. -/
def expand_prompts (prompts : List String) (S : Nat) : List String :=
  prompts.flatMap (fun p => List.replicate S p)

/-- Embedding of the re-grouping in the batch branch of
`SampleMultiple.__call__`:
`[responses[i*n : (i+1)*n] for i in range(len(prompts))]` with `n = S`. -/
def group_responses (responses : List String) (N S : Nat) : List (List String) :=
  (List.range N).map (fun i => (responses.drop (i * S)).take S)

/-- Embedding of the batch branch of `SampleMultiple.__call__`: expand
prompt-major, dispatch the flat list, slice the flat response list back
into contiguous chunks of `S` per original prompt. -/
def sampleMultiple_call_list (llm : BatchDispatch) (S : Nat) (prompts : List String) :
    List (List String) :=
  group_responses (llm (expand_prompts prompts S)) prompts.length S

/-- Embedding of the single-prompt branch of `SampleMultiple.__call__`:
`prompts_to_send = [prompts] * self.n_samples; return [responses]`. -/
def sampleMultiple_call_single (llm : BatchDispatch) (S : Nat) (prompt : String) :
    List (List String) :=
  [llm (List.replicate S prompt)]

/-- Shape of a Grouped Result: the number of samples in each group, in
group order (so its length is the number of groups). -/
def groupShape (g : List (List String)) : List Nat :=
  g.map List.length

/-! ## Strategy construction (`simple_samplers.py` constructors, `methods/__init__.py`) -/

/-- The configuration a `SampleMultiple` instance holds after
`__init__` returns (the fields it assigns, temperature as an exact
rational since only order/equality comparisons with 0 occur). -/
structure SampleMultipleConfig where
  model : String
  system_prompt : SystemPrompt
  n_samples : Nat
  temperature : ℚ
  max_workers : Nat
deriving DecidableEq, Repr

/-- The configuration a `GreedyMethod` instance holds after `__init__`
returns; its temperature is hard-coded to `0.0` and not a parameter. -/
structure GreedyConfig where
  model : String
  system_prompt : SystemPrompt
  max_workers : Nat
deriving DecidableEq, Repr

/-- Embedding of `SampleMultiple.__init__`: it assigns its fields and
performs no validation, so it cannot fail — the `Except` result is the
room Python leaves for a raised fault, and this constructor never uses it. -/
def SampleMultiple_init (model : String) (system_prompt : SystemPrompt)
    (n_samples : Nat) (temperature : ℚ) (max_workers : Nat) :
    Except String SampleMultipleConfig :=
  Except.ok { model := model, system_prompt := system_prompt,
              n_samples := n_samples, temperature := temperature,
              max_workers := max_workers }

/-- Embedding of `GreedyMethod.__init__`: fields assigned, temperature
fixed at 0, no validation, never fails. -/
def GreedyMethod_init (model : String) (system_prompt : SystemPrompt)
    (max_workers : Nat) : Except String GreedyConfig :=
  Except.ok { model := model, system_prompt := system_prompt,
              max_workers := max_workers }

/-- A constructed strategy, as returned by the `get_sampler` factory. -/
inductive Sampler where
  | sampleMultiple (cfg : SampleMultipleConfig)
  | greedy (cfg : GreedyConfig)
deriving DecidableEq, Repr

/-- Embedding of `get_sampler` in `methods/__init__.py`: the factory
asserts `temperature > 0.0` for `"sample_multiple"` and
`temperature == 0.0` for `"greedy"` before constructing, and rejects
unknown method names.  An `Except.error` is a raised
`AssertionError`/`ValueError`. -/
def get_sampler (method : String) (model : String) (system_prompt : SystemPrompt)
    (n_samples : Nat) (temperature : ℚ) : Except String Sampler :=
  if method = "sample_multiple" then
    if temperature > 0 then
      (SampleMultiple_init model system_prompt n_samples temperature 256).map
        Sampler.sampleMultiple
    else
      Except.error "Sample multiple requires temperature > 0"
  else if method = "greedy" then
    if temperature = 0 then
      (GreedyMethod_init model system_prompt 256).map Sampler.greedy
    else
      Except.error "Greedy decoding does not use temperature, it will be 0 by default"
  else
    Except.error ("Unknown method: " ++ method)

/-! ## Dynamic input checking (`LiteLLMModel.__call__`, `GreedyMethod.__call__`) -/

/-- A Python runtime value as the `__call__` entry points see it: a
string, a list of values, or anything else. -/
inductive PyVal where
  | str (s : String)
  | listv (xs : List PyVal)
  | other

/-- The fault an entry point raises on bad input. -/
inductive CallError where
  | typeError (msg : String)
  | valueError (msg : String)
  | assertionError (msg : String)
deriving DecidableEq, Repr

/-- Extracts the underlying string of a `PyVal` when it is one
(`isinstance(p, str)` check plus the coercion). -/
def PyVal.asString : PyVal → Option String
  | PyVal.str s => some s
  | _ => none

/-- Checks `all(isinstance(p, str) for p in prompts)` and collects the
strings when it holds. -/
def allStrings (xs : List PyVal) : Option (List String) :=
  xs.mapM PyVal.asString

/-- Embedding of `LiteLLMModel.__call__`: dispatch on the runtime type
of `prompts`, raising `ValueError` for a list with a non-string element
and `TypeError` for anything that is neither a string nor a list.
The second component counts the remote completion requests issued. -/
def model_call (resp : String → String) : PyVal → Except CallError PyVal × Nat
  | PyVal.str s => (Except.ok (PyVal.str (resp s)), 1)
  | PyVal.listv xs =>
    match allStrings xs with
    | some ss => (Except.ok (PyVal.listv ((ss.map resp).map PyVal.str)), ss.length)
    | none => (Except.error (CallError.valueError "All prompts must be strings."), 0)
  | PyVal.other =>
    (Except.error (CallError.typeError "prompts must be a string or a list of strings."), 0)

/-- Embedding of the type-dispatch of `GreedyMethod.__call__`: a string
goes to the single-prompt branch, a list of strings to the batch branch,
a list with a non-string element trips the `assert` before any dispatch,
and anything else raises `TypeError`.  The second component counts the
remote completion requests issued. -/
def greedy_call_py (resp : String → String) : PyVal → Except CallError (List (List String)) × Nat
  | PyVal.str s => (Except.ok (greedy_call_single resp s), 1)
  | PyVal.listv xs =>
    match allStrings xs with
    | some ss => (Except.ok (greedy_call_list (fun l => l.map resp) ss), ss.length)
    | none => (Except.error (CallError.assertionError "All prompts must be strings"), 0)
  | PyVal.other =>
    (Except.error (CallError.typeError "prompts must be a string or a list of strings."), 0)

/-- An input is well-typed when it is a string or a list of strings. -/
def validInput : PyVal → Bool
  | PyVal.str _ => true
  | PyVal.listv xs => (allStrings xs).isSome
  | PyVal.other => false

/-! ## Verification Adapter (`MATH500Verifier.verify`) -/

/-- The comparison budget installed by `timeout_decorator.timeout(2)`. -/
def VERIFY_TIMEOUT_SECONDS : ℚ := 2

/-- One run of the symbolic checker `math_equal` (external to this
repository): how long it takes, and whether it returns a boolean or
raises. -/
structure CompRun where
  duration : ℚ
  result : Except String Bool

/-- Outcome of calling a function through `timeout_decorator.timeout`:
the wrapped call is cut off with a `TimeoutError` when it exceeds the
bound, otherwise its own return or raised fault passes through. -/
inductive CompOutcome where
  | value (b : Bool)
  | timedOut
  | fault (msg : String)
deriving DecidableEq, Repr

/-- Semantics of `timeout_decorator.timeout(bound)(f)` applied to a run
of `f`. -/
def timeout_call (bound : ℚ) (run : CompRun) : CompOutcome :=
  if bound < run.duration then CompOutcome.timedOut
  else
    match run.result with
    | Except.ok b => CompOutcome.value b
    | Except.error e => CompOutcome.fault e

/-- Embedding of `MATH500Verifier.verify`: optional normalization via
`strip_string(extract_answer(solution, "math"))` (both from the external
`math_utils` module, taken as abstract functions), then the `math_equal`
comparison under a 2-second timeout inside `try`, with
`except timeout_decorator.TimeoutError: return 0` and
`except Exception: return 0`. -/
def verify (extract_answer strip_string : String → String)
    (math_equal : String → String → CompRun)
    (solution ground_truth : String) (normalize_prediction : Bool) : Int :=
  let extracted_answer :=
    if normalize_prediction then strip_string (extract_answer solution) else solution
  match timeout_call VERIFY_TIMEOUT_SECONDS (math_equal extracted_answer ground_truth) with
  | CompOutcome.value b => if b then 1 else 0
  | CompOutcome.timedOut => 0
  | CompOutcome.fault _ => 0

/-! ## Worker pool (`ThreadPoolExecutor(max_workers=W)` admission, spec §5) -/

/-- State of the dispatch pool: units of work still queued, currently
executing, and completed. -/
structure PoolState where
  pending : Nat
  running : Nat
  completed : Nat
deriving DecidableEq, Repr

/-- The two events of a dispatch under a pool capped at `W` workers.
Admission (`start`) is possible only while fewer than `W` units run —
this is the pool's admission mechanism, which the spec names as the sole
enforcement of the worker cap; `finish` retires a running unit. -/
inductive PoolStep (W : Nat) : PoolState → PoolState → Prop
  | start (s : PoolState) (hp : 0 < s.pending) (hr : s.running < W) :
      PoolStep W s { pending := s.pending - 1, running := s.running + 1,
                     completed := s.completed }
  | finish (s : PoolState) (hr : 0 < s.running) :
      PoolStep W s { pending := s.pending, running := s.running - 1,
                     completed := s.completed + 1 }

/-- Initial state of `send_requests` on a batch of `M` prompts: all `M`
units queued, none running, none completed. -/
def initPool (M : Nat) : PoolState :=
  { pending := M, running := 0, completed := 0 }

/-- States a dispatch can pass through: reflexive-transitive closure of
the pool events. -/
def PoolReachable (W : Nat) (s t : PoolState) : Prop :=
  Relation.ReflTransGen (PoolStep W) s t

/-- Echo executor for the spec's worked example: answers the two
arithmetic prompts exactly. -/
def echoAnswer : String → String
  | "2+2=" => "4"
  | "3+3=" => "6"
  | _ => ""

/-! ## Helper lemmas -/

lemma fillSlots_nil (resp : ResponseOracle) (slots : List (Option String)) :
    fillSlots resp [] slots = slots := rfl

lemma fillSlots_cons (resp : ResponseOracle) (j : Nat) (rest : List Nat)
    (slots : List (Option String)) :
    fillSlots resp (j :: rest) slots = fillSlots resp rest (slots.set j (some (resp j))) := rfl

lemma fillSlots_length (resp : ResponseOracle) (order : List Nat)
    (slots : List (Option String)) :
    (fillSlots resp order slots).length = slots.length := by
  induction order generalizing slots with
  | nil => rfl
  | cons j rest ih => rw [fillSlots_cons, ih, List.length_set]

lemma fillSlots_getElem? (resp : ResponseOracle) (order : List Nat)
    (slots : List (Option String)) (i : Nat) (hi : i < slots.length) :
    (fillSlots resp order slots)[i]? =
      if i ∈ order then some (some (resp i)) else slots[i]? := by
  induction order generalizing slots with
  | nil => simp [fillSlots_nil]
  | cons j rest ih =>
    rw [fillSlots_cons, ih _ (by rw [List.length_set]; exact hi)]
    by_cases hmem : i ∈ rest
    · simp [hmem]
    · by_cases hij : i = j
      · subst hij
        simp [hmem, List.getElem?_set_self hi]
      · simp [hmem, hij, List.getElem?_set_ne (fun h => hij h.symm)]

lemma mapM_id_map_some (l : List String) :
    (l.map some).mapM (id : Option String → Option String) = some l := by
  induction l with
  | nil => rfl
  | cons a l ih =>
    rw [List.map_cons, List.mapM_cons, ih]
    rfl

lemma expand_prompts_nil (S : Nat) : expand_prompts [] S = [] := rfl

lemma expand_prompts_cons (p : String) (ps : List String) (S : Nat) :
    expand_prompts (p :: ps) S = List.replicate S p ++ expand_prompts ps S := rfl

lemma expand_prompts_length (prompts : List String) (S : Nat) :
    (expand_prompts prompts S).length = prompts.length * S := by
  induction prompts with
  | nil => simp [expand_prompts_nil]
  | cons p ps ih =>
    rw [expand_prompts_cons, List.length_append, List.length_replicate, ih,
      List.length_cons]
    ring

lemma expand_prompts_getElem? (prompts : List String) (S : Nat) (i k : Nat)
    (hi : i < prompts.length) (hk : k < S) :
    (expand_prompts prompts S)[i * S + k]? = prompts[i]? := by
  induction prompts generalizing i with
  | nil => simp at hi
  | cons p ps ih =>
    rw [expand_prompts_cons]
    cases i with
    | zero =>
      rw [List.getElem?_append]
      simp [List.length_replicate, hk, List.getElem?_replicate]
    | succ i =>
      have hlen : (List.replicate S p).length ≤ (i + 1) * S + k := by
        rw [List.length_replicate]
        nlinarith
      rw [List.getElem?_append_right hlen, List.length_replicate]
      have harith : (i + 1) * S + k - S = i * S + k := by
        have : (i + 1) * S = i * S + S := by ring
        omega
      rw [harith, ih i (by simpa using hi)]
      simp

/-! ## Claim theorems -/

/-- C1: for a batch of `M` prompts and any order in which the concurrent
workers' results are recorded (any permutation of the submission
indices), `send_requests` returns exactly `M` response strings with
`result[i]` the response produced for input prompt `i`. -/
theorem C1_send_requests_positional_stability (resp : ResponseOracle)
    (prompts : List String) (order : List Nat)
    (hperm : order.Perm (List.range prompts.length)) :
    ∃ result : List String,
      send_requests resp prompts.length order = some result ∧
      result.length = prompts.length ∧
      ∀ i, i < prompts.length → result[i]? = some (resp i) := by
  set M := prompts.length with hM
  have hfilled : fillSlots resp order (List.replicate M none) =
      (List.range M).map (fun i => some (resp i)) := by
    apply List.ext_getElem?
    intro n
    by_cases hn : n < M
    · rw [fillSlots_getElem? resp order _ n (by simpa using hn)]
      have hmem : n ∈ order := hperm.mem_iff.mpr (List.mem_range.mpr hn)
      simp [hmem, List.getElem?_map, List.getElem?_range hn]
    · have h1 : (fillSlots resp order (List.replicate M none)).length ≤ n := by
        rw [fillSlots_length, List.length_replicate]
        omega
      have h2 : ((List.range M).map (fun i => some (resp i))).length ≤ n := by
        rw [List.length_map, List.length_range]
        omega
      rw [List.getElem?_eq_none h1, List.getElem?_eq_none h2]
  refine ⟨(List.range M).map resp, ?_, by simp, ?_⟩
  · rw [send_requests, hfilled]
    have : (List.range M).map (fun i => some (resp i)) = ((List.range M).map resp).map some := by
      simp [List.map_map]
    rw [this, mapM_id_map_some]
  · intro i hi
    rw [List.getElem?_map, List.getElem?_range hi]
    rfl

/-- C1 witness: a 3-prompt batch whose results are recorded in the
completion order 2, 0, 1 still yields the positionally stable output. -/
theorem C1_witness :
    ∃ result : List String,
      send_requests (fun i => toString i) 3 [2, 0, 1] = some result ∧
      result.length = 3 ∧
      ∀ i, i < 3 → result[i]? = some (toString i) := by
  have h := C1_send_requests_positional_stability (fun i => toString i)
    ["a", "b", "c"] [2, 0, 1] (by decide)
  simpa using h

/-- C2: the multi-sample batch path expands prompt-major (entry
`i*S + k` of the expansion is prompt `i`, for `k < S`); the expansion has
`N*S` entries; and, whenever the dispatcher returns one response per
physical request, the Grouped Result has exactly `N` groups, each of
length `S`, group `i` being the contiguous chunk
`responses[i*S .. i*S+S-1]` of the flat response list. -/
theorem C2_sampleMultiple_prompt_major_grouping (llm : BatchDispatch)
    (S : Nat) (prompts : List String) (hS : 0 < S)
    (hllm : (llm (expand_prompts prompts S)).length = (expand_prompts prompts S).length) :
    (expand_prompts prompts S).length = prompts.length * S ∧
    (∀ i k, i < prompts.length → k < S →
      (expand_prompts prompts S)[i * S + k]? = prompts[i]?) ∧
    (sampleMultiple_call_list llm S prompts).length = prompts.length ∧
    ∀ i, i < prompts.length →
      ∃ g, (sampleMultiple_call_list llm S prompts)[i]? = some g ∧
        g.length = S ∧
        ∀ k, k < S → g[k]? = (llm (expand_prompts prompts S))[i * S + k]? := by
  set N := prompts.length with hN
  set responses := llm (expand_prompts prompts S) with hresp
  have hrlen : responses.length = N * S := by
    rw [hresp, hllm, expand_prompts_length]
  refine ⟨expand_prompts_length prompts S,
    fun i k hi hk => expand_prompts_getElem? prompts S i k hi hk, ?_, ?_⟩
  · simp [sampleMultiple_call_list, group_responses]
  · intro i hi
    refine ⟨(responses.drop (i * S)).take S, ?_, ?_, ?_⟩
    · simp only [sampleMultiple_call_list, group_responses]
      rw [List.getElem?_map, List.getElem?_range hi]
      rfl
    · rw [List.length_take, List.length_drop, hrlen]
      have : (i + 1) * S ≤ N * S := Nat.mul_le_mul_right S hi
      have : i * S + S ≤ N * S := by nlinarith
      omega
    · intro k hk
      rw [List.getElem?_take, if_pos hk, List.getElem?_drop]

/-- C2 witness: two prompts, two samples each, with a dispatcher that
tags each physical request by its content. -/
theorem C2_witness :
    (expand_prompts ["p", "q"] 2).length = 2 * 2 ∧
    (∀ i k, i < 2 → k < 2 →
      (expand_prompts ["p", "q"] 2)[i * 2 + k]? = (["p", "q"] : List String)[i]?) ∧
    (sampleMultiple_call_list (fun l => l.map (fun s => s ++ "!")) 2 ["p", "q"]).length = 2 ∧
    ∀ i, i < 2 →
      ∃ g, (sampleMultiple_call_list (fun l => l.map (fun s => s ++ "!")) 2 ["p", "q"])[i]? = some g ∧
        g.length = 2 ∧
        ∀ k, k < 2 → g[k]? =
          ((fun l => l.map (fun s => s ++ "!")) (expand_prompts ["p", "q"] 2))[i * 2 + k]? := by
  have h := C2_sampleMultiple_prompt_major_grouping
    (fun l => l.map (fun s => s ++ "!")) 2 ["p", "q"] (by decide) (by simp)
  simpa using h

/-- C3: the deterministic strategy returns `[[response]]` for a single
prompt; on a batch it returns one single-sample group per prompt, group
`i` holding the dispatcher's response for prompt `i`; and on the echo
executor the worked example `["2+2=", "3+3="] ↦ [["4"], ["6"]]` holds. -/
theorem C3_greedy_shapes (resp : String → String) (llm : BatchDispatch)
    (prompts : List String) (p : String)
    (hllm : (llm prompts).length = prompts.length) :
    greedy_call_single resp p = [[resp p]] ∧
    (greedy_call_list llm prompts).length = prompts.length ∧
    (∀ i, i < prompts.length →
      ∃ r, (llm prompts)[i]? = some r ∧ (greedy_call_list llm prompts)[i]? = some [r]) ∧
    greedy_call_list (fun l => l.map echoAnswer) ["2+2=", "3+3="] = [["4"], ["6"]] := by
  refine ⟨rfl, by simp [greedy_call_list, hllm], ?_, by rfl⟩
  intro i hi
  have hi' : i < (llm prompts).length := by omega
  refine ⟨(llm prompts).get ⟨i, hi'⟩, ?_, ?_⟩
  · simp
  · rw [greedy_call_list, List.getElem?_map]
    simp

/-- C3 witness: the identity dispatcher on a two-prompt batch. -/
theorem C3_witness :
    greedy_call_single (fun s => s) "w" = [["w"]] ∧
    (greedy_call_list (fun l => l) ["a", "b"]).length = 2 ∧
    (∀ i, i < (["a", "b"] : List String).length →
      ∃ r, ((fun l => l) (["a", "b"] : List String))[i]? = some r ∧
        (greedy_call_list (fun l => l) ["a", "b"])[i]? = some [r]) ∧
    greedy_call_list (fun l => l.map echoAnswer) ["2+2=", "3+3="] = [["4"], ["6"]] := by
  have h := C3_greedy_shapes (fun s => s) (fun l => l) ["a", "b"] "w" rfl
  simpa using h

/-- C4 counterexample: constructing the multi-sample strategy directly
via `SampleMultiple.__init__` with `temperature = 0` does NOT fail — the
constructor performs no validation and returns a fully formed instance
holding the inconsistent temperature. -/
theorem C4_counterexample_direct_construction_succeeds :
    ∃ cfg, SampleMultiple_init "gpt-4o-mini" none 3 0 256 = Except.ok cfg ∧
      cfg.temperature = 0 := by
  exact ⟨_, rfl, rfl⟩

/-- C4 (amended): configuration validation lives in the `get_sampler`
factory, not in the class constructors: `get_sampler` with method
`"greedy"` and temperature ≠ 0 fails, and with method
`"sample_multiple"` and temperature = 0 fails, both before any strategy
is constructed; the consistent combinations succeed there; but direct
construction of `SampleMultiple` accepts temperature = 0 without
failing (and `GreedyMethod.__init__` takes no temperature at all). -/
theorem C4_validation_in_factory (model : String) (sp : SystemPrompt)
    (n : Nat) (t : ℚ) :
    (t ≠ 0 → ∃ e, get_sampler "greedy" model sp n t = Except.error e) ∧
    (t = 0 → ∃ e, get_sampler "sample_multiple" model sp n t = Except.error e) ∧
    (t > 0 → (get_sampler "sample_multiple" model sp n t).isOk = true) ∧
    (t = 0 → (get_sampler "greedy" model sp n t).isOk = true) ∧
    (∃ cfg, SampleMultiple_init model sp n 0 256 = Except.ok cfg ∧
      cfg.temperature = 0) := by
  refine ⟨?_, ?_, ?_, ?_, ⟨_, rfl, rfl⟩⟩
  · intro ht
    refine ⟨"Greedy decoding does not use temperature, it will be 0 by default", ?_⟩
    simp [get_sampler, ht]
  · intro ht
    subst ht
    refine ⟨"Sample multiple requires temperature > 0", ?_⟩
    simp [get_sampler]
  · intro ht
    simp [get_sampler, ht, SampleMultiple_init, Except.map, Except.isOk, Except.toBool]
  · intro ht
    subst ht
    simp [get_sampler, GreedyMethod_init, Except.map, Except.isOk, Except.toBool]

/-- C4 witness: the factory rejects greedy at temperature 1 and
multi-sample at temperature 0, and accepts multi-sample at 7/10. -/
theorem C4_witness :
    (∃ e, get_sampler "greedy" "m" none 3 1 = Except.error e) ∧
    (∃ e, get_sampler "sample_multiple" "m" none 3 0 = Except.error e) ∧
    (get_sampler "sample_multiple" "m" none 3 (7 / 10) ).isOk = true := by
  refine ⟨(C4_validation_in_factory "m" none 3 1).1 (by norm_num),
    (C4_validation_in_factory "m" none 3 0).2.1 rfl,
    (C4_validation_in_factory "m" none 3 (7 / 10)).2.2.1 (by norm_num)⟩

/-- C5: the Request Executor makes at most 3 total attempts (and at
least 1); the modelled inter-attempt delay is clamped into `[1, 5]`
seconds; when the completion call fails twice then succeeds, the result
is the successful response obtained at exactly attempt 3; when all 3
attempts fail, `send_request` returns the sentinel string
`"Error: " ++ description` — it is a total function, so no fault escapes
to the batch caller. -/
theorem C5_retry_policy (f : AttemptOracle) (draw : ℚ) :
    1 ≤ (make_completion_request f).2 ∧
    (make_completion_request f).2 ≤ MAX_ATTEMPTS ∧
    (1 ≤ wait_random_exponential 1 5 draw ∧ wait_random_exponential 1 5 draw ≤ 5) ∧
    (∀ e₁ e₂ r, f 1 = Except.error e₁ → f 2 = Except.error e₂ → f 3 = Except.ok r →
      make_completion_request f = (Except.ok r, 3) ∧ send_request f = r) ∧
    (∀ e₁ e₂ e₃, f 1 = Except.error e₁ → f 2 = Except.error e₂ → f 3 = Except.error e₃ →
      send_request f = "Error: " ++ e₃) := by
  have hwait : 1 ≤ wait_random_exponential 1 5 draw ∧ wait_random_exponential 1 5 draw ≤ 5 := by
    constructor
    · exact le_max_left 1 _
    · rw [wait_random_exponential]
      rcases le_total draw 5 with h | h
      · rw [min_eq_left h]
        rcases le_total 1 draw with h1 | h1
        · rw [max_eq_right h1]; exact h
        · rw [max_eq_left h1]; norm_num
      · rw [min_eq_right h, max_eq_right (by norm_num : (1 : ℚ) ≤ 5)]
  have hrun : make_completion_request f = retryRun f 1 2 := rfl
  refine ⟨?_, ?_, hwait, ?_, ?_⟩
  · rw [hrun]
    simp only [retryRun]
    rcases f 1 with e₁ | r₁
    · simp only [retryRun]
      rcases f 2 with e₂ | r₂
      · simp
      · simp
    · simp
  · rw [hrun, MAX_ATTEMPTS]
    simp only [retryRun]
    rcases f 1 with e₁ | r₁
    · simp only [retryRun]
      rcases f 2 with e₂ | r₂
      · simp
      · simp
    · simp
  · intro e₁ e₂ r h1 h2 h3
    have : make_completion_request f = (Except.ok r, 3) := by
      rw [hrun]
      simp [retryRun, h1, h2, h3]
    exact ⟨this, by rw [send_request, this]⟩
  · intro e₁ e₂ e₃ h1 h2 h3
    have : make_completion_request f = (Except.error e₃, 3) := by
      rw [hrun]
      simp [retryRun, h1, h2, h3]
    rw [send_request, this]

/-- C5 witness: an oracle failing on every attempt yields the sentinel,
and one failing twice then succeeding yields the success at attempt 3. -/
theorem C5_witness :
    send_request (fun _ => Except.error "boom") = "Error: boom" ∧
    make_completion_request
      (fun k => if k < 3 then Except.error "transient" else Except.ok "done") =
      (Except.ok "done", 3) := by
  constructor
  · exact (C5_retry_policy (fun _ => Except.error "boom") 0).2.2.2.2
      "boom" "boom" "boom" rfl rfl rfl
  · exact ((C5_retry_policy
      (fun k => if k < 3 then Except.error "transient" else Except.ok "done") 0).2.2.2.1
      "transient" "transient" "done" rfl rfl rfl).1

/-- C6: for both strategies, a single-prompt call and a one-element
batch call with the same prompt produce structurally equivalent Grouped
Results: both are one-group lists, with one sample per group for the
deterministic strategy and `S` samples per group for the multi-sample
strategy, whenever the dispatcher returns one response per request. -/
theorem C6_single_vs_singleton_batch_shape (resp : String → String)
    (llm : BatchDispatch) (S : Nat) (p : String)
    (hllm : ∀ l, (llm l).length = l.length) :
    groupShape (greedy_call_single resp p) = groupShape (greedy_call_list llm [p]) ∧
    groupShape (sampleMultiple_call_single llm S p) =
      groupShape (sampleMultiple_call_list llm S [p]) ∧
    groupShape (greedy_call_single resp p) = [1] ∧
    groupShape (sampleMultiple_call_single llm S p) = [S] := by
  have hone : (llm [p]).length = 1 := by rw [hllm]; rfl
  have hgreedyList : groupShape (greedy_call_list llm [p]) = [1] := by
    obtain ⟨r, hr⟩ := List.length_eq_one.mp hone
    rw [greedy_call_list, hr]
    rfl
  have hsingle : groupShape (sampleMultiple_call_single llm S p) = [S] := by
    rw [sampleMultiple_call_single, groupShape]
    simp [hllm]
  have hlist : groupShape (sampleMultiple_call_list llm S [p]) = [S] := by
    have hexp : expand_prompts [p] S = List.replicate S p := by
      rw [expand_prompts_cons, expand_prompts_nil, List.append_nil]
    have hlen : (llm (expand_prompts [p] S)).length = S := by
      rw [hllm, hexp, List.length_replicate]
    rw [sampleMultiple_call_list, group_responses, groupShape, List.length_cons,
      List.length_nil]
    simp [List.range_succ, List.length_take, hlen]
  exact ⟨by rw [hgreedyList]; rfl, by rw [hsingle, hlist], rfl, hsingle⟩

/-- C6 witness: the identity dispatcher, two samples, prompt `"x"`. -/
theorem C6_witness :
    groupShape (greedy_call_single (fun s => s) "x") =
      groupShape (greedy_call_list (fun l => l) ["x"]) ∧
    groupShape (sampleMultiple_call_single (fun l => l) 2 "x") =
      groupShape (sampleMultiple_call_list (fun l => l) 2 ["x"]) ∧
    groupShape (greedy_call_single (fun s => s) "x") = [1] ∧
    groupShape (sampleMultiple_call_single (fun l => l) 2 "x") = [2] := by
  exact C6_single_vs_singleton_batch_shape (fun s => s) (fun l => l) 2 "x" (fun l => rfl)

/-- C7: any input that is neither a string nor a list of strings makes
both the model entry point and the deterministic strategy entry point
fail with a type-mismatch fault while issuing zero remote completion
requests. -/
theorem C7_bad_input_no_network (resp : String → String) (v : PyVal)
    (hv : validInput v = false) :
    (∃ err, (model_call resp v).1 = Except.error err) ∧
    (model_call resp v).2 = 0 ∧
    (∃ err, (greedy_call_py resp v).1 = Except.error err) ∧
    (greedy_call_py resp v).2 = 0 := by
  cases v with
  | str s => simp [validInput] at hv
  | listv xs =>
    have hnone : allStrings xs = none := by
      rw [validInput] at hv
      rcases h : allStrings xs with _ | ss
      · rfl
      · rw [h] at hv; simp at hv
    refine ⟨⟨CallError.valueError "All prompts must be strings.", ?_⟩, ?_,
      ⟨CallError.assertionError "All prompts must be strings", ?_⟩, ?_⟩ <;>
      simp [model_call, greedy_call_py, hnone]
  | other =>
    exact ⟨⟨CallError.typeError "prompts must be a string or a list of strings.", rfl⟩,
      rfl,
      ⟨CallError.typeError "prompts must be a string or a list of strings.", rfl⟩,
      rfl⟩

/-- C7 witness: a non-string, non-list value (and, through the same
theorem, a list holding a non-string) is rejected with zero requests. -/
theorem C7_witness :
    (∃ err, (model_call (fun s => s) PyVal.other).1 = Except.error err) ∧
    (model_call (fun s => s) PyVal.other).2 = 0 ∧
    (∃ err, (greedy_call_py (fun s => s) PyVal.other).1 = Except.error err) ∧
    (greedy_call_py (fun s => s) PyVal.other).2 = 0 := by
  exact C7_bad_input_no_network (fun s => s) PyVal.other rfl

/-- C8: the Verification Adapter always returns 0 or 1; the comparison
runs under the 2-second bound `VERIFY_TIMEOUT_SECONDS`; a comparison
that runs longer than the bound, or raises, yields 0 rather than a
fault; with the normalize flag set the canonical
`strip_string (extract_answer solution)` substring is what gets
compared (a normalized call equals a direct-comparison call on the
extracted text), and without it the solution text is compared directly
(the result depends on the checker only through its run on the solution
text itself). -/
theorem C8_verifier_bounded_and_total (extract_answer strip_string : String → String)
    (math_equal : String → String → CompRun) (sol gt : String) (norm : Bool) :
    VERIFY_TIMEOUT_SECONDS = 2 ∧
    (verify extract_answer strip_string math_equal sol gt norm = 0 ∨
     verify extract_answer strip_string math_equal sol gt norm = 1) ∧
    (VERIFY_TIMEOUT_SECONDS <
        (math_equal (if norm then strip_string (extract_answer sol) else sol) gt).duration →
      verify extract_answer strip_string math_equal sol gt norm = 0) ∧
    (∀ e, (math_equal (if norm then strip_string (extract_answer sol) else sol) gt).result =
        Except.error e →
      verify extract_answer strip_string math_equal sol gt norm = 0) ∧
    verify extract_answer strip_string math_equal sol gt true =
      verify (fun s => s) (fun s => s) math_equal (strip_string (extract_answer sol)) gt false ∧
    (∀ me₂ : String → String → CompRun, me₂ sol gt = math_equal sol gt →
      verify extract_answer strip_string me₂ sol gt false =
        verify extract_answer strip_string math_equal sol gt false) := by
  refine ⟨rfl, ?_, ?_, ?_, rfl, ?_⟩
  · rw [verify]
    rcases timeout_call VERIFY_TIMEOUT_SECONDS
        (math_equal (if norm then strip_string (extract_answer sol) else sol) gt) with b | _ | e
    · rcases b with _ | _ <;> simp
    · simp
    · simp
  · intro hdur
    rw [verify, timeout_call, if_pos hdur]
  · intro e he
    rw [verify, timeout_call]
    by_cases hdur : VERIFY_TIMEOUT_SECONDS <
        (math_equal (if norm then strip_string (extract_answer sol) else sol) gt).duration
    · rw [if_pos hdur]
    · rw [if_neg hdur, he]
  · intro me₂ hme
    rw [verify, verify]
    simp only [Bool.false_eq_true, if_false, hme]

/-- C8 witness: a checker sleeping 3 seconds returns 0, a raising
checker returns 0, and a fast agreeing checker shows the 0-or-1 range. -/
theorem C8_witness :
    verify (fun s => s) (fun s => s) (fun _ _ => ⟨3, Except.ok true⟩) "a" "a" false = 0 ∧
    verify (fun s => s) (fun s => s) (fun _ _ => ⟨1, Except.error "bad parse"⟩) "a" "a" false = 0 ∧
    (verify (fun s => s) (fun s => s) (fun _ _ => ⟨1, Except.ok true⟩) "a" "a" true = 0 ∨
     verify (fun s => s) (fun s => s) (fun _ _ => ⟨1, Except.ok true⟩) "a" "a" true = 1) := by
  refine ⟨?_, ?_, ?_⟩
  · exact (C8_verifier_bounded_and_total (fun s => s) (fun s => s)
      (fun _ _ => ⟨3, Except.ok true⟩) "a" "a" false).2.2.1 (by norm_num [VERIFY_TIMEOUT_SECONDS])
  · exact (C8_verifier_bounded_and_total (fun s => s) (fun s => s)
      (fun _ _ => ⟨1, Except.error "bad parse"⟩) "a" "a" false).2.2.2.1 "bad parse" rfl
  · exact (C8_verifier_bounded_and_total (fun s => s) (fun s => s)
      (fun _ _ => ⟨1, Except.ok true⟩) "a" "a" true).2.1

/-- C9: for a worker cap `W` and a batch of `M > W` units, every state a
dispatch can reach from the initial all-queued state has at most `W`
units running; and the only event that moves an item out of the queue is
an admission, which requires a free worker (`running < W`) — excess
items stay queued until a worker frees up. -/
theorem C9_worker_cap_enforced (W M : Nat) (hMW : W < M) (t : PoolState)
    (ht : PoolReachable W (initPool M) t) :
    t.running ≤ W ∧
    (∀ u, PoolStep W t u → u.pending < t.pending → t.running < W) := by
  constructor
  · induction ht with
    | refl => simp [initPool]
    | tail _ step ih =>
      cases step with
      | start hp hr => simpa using hr
      | finish hr => simp; omega
  · intro u step hpend
    cases step with
    | start hp hr => exact hr
    | finish hr => simp at hpend

/-- C9 witness: with cap 1 and batch 2, after admitting one unit the
reached state runs at most 1 unit, and a queue-draining step from there
needs a free worker. -/
theorem C9_witness :
    ({ pending := 1, running := 1, completed := 0 } : PoolState).running ≤ 1 ∧
    (∀ u, PoolStep 1 { pending := 1, running := 1, completed := 0 } u →
      u.pending < ({ pending := 1, running := 1, completed := 0 } : PoolState).pending →
      ({ pending := 1, running := 1, completed := 0 } : PoolState).running < 1) := by
  exact C9_worker_cap_enforced 1 2 (by decide)
    { pending := 1, running := 1, completed := 0 }
    (Relation.ReflTransGen.single
      (by simpa using PoolStep.start (W := 1) (initPool 2) (by simp [initPool]) (by simp [initPool])))

/-- C10: the message sequence sent for a prompt is the user message
holding the prompt, preceded by a system message exactly when the
configured system prompt is a truthy (non-`None`, non-empty) string; an
empty-string system prompt produces the same messages as no system
prompt at all; and the user message always comes last. -/
theorem C10_system_prompt_truthiness (sp : SystemPrompt) (p : String) :
    buildMessages none p = [{ role := "user", content := p }] ∧
    buildMessages (some "") p = buildMessages none p ∧
    (∀ s, s ≠ "" → buildMessages (some s) p =
      [{ role := "system", content := s }, { role := "user", content := p }]) ∧
    (buildMessages sp p).getLast? = some { role := "user", content := p } := by
  refine ⟨rfl, rfl, ?_, ?_⟩
  · intro s hs
    rw [buildMessages]
    simp [systemPromptTruthy, hs]
  · rcases sp with _ | s
    · rfl
    · rw [buildMessages]
      by_cases hs : s = ""
      · subst hs
        rfl
      · simp [systemPromptTruthy, hs]

/-- C10 witness: a concrete non-empty system prompt produces the
two-message sequence, and the empty one collapses to the user message. -/
theorem C10_witness :
    buildMessages (some "") "hi" = buildMessages none "hi" ∧
    buildMessages (some "be brief") "hi" =
      [{ role := "system", content := "be brief" }, { role := "user", content := "hi" }] := by
  have h := C10_system_prompt_truthiness (some "be brief") "hi"
  exact ⟨h.2.1, h.2.2.1 "be brief" (by decide)⟩

end CS329
